import Mathlib

/-!
Verification of the analytical query and relevance-scoring engine of the
Ethiopian Medical Data Analytics API (FastAPI service over a warehouse).

The definitions below are a shallow embedding of `crud.py` and `main.py`:
pure Python/SQL computations become Lean functions over `List Char` (message
text), `Rat` (numeric values; Python floats are idealised as rationals) and
`Int` (timestamps at the granularity the claims need).  The warehouse query
executor is out of scope per the specification and is passed in as an
explicit oracle parameter where a property speaks about it.
-/

namespace MedAnalytics

/-! ## Text utilities (Python `str.lower`, `str.strip`, `str.split`, `in`) -/

/-- Python `str.lower` restricted to the character-wise case mapping. -/
def lowerStr (s : List Char) : List Char := s.map Char.toLower

/-- Python `str.strip`: drop leading and trailing whitespace. -/
def stripL (s : List Char) : List Char :=
  ((s.dropWhile Char.isWhitespace).reverse.dropWhile Char.isWhitespace).reverse

/-- Helper for `splitWs`: accumulates the current token (reversed). -/
def splitWsAux : List Char → List Char → List (List Char)
  | [], acc => if acc.isEmpty then [] else [acc.reverse]
  | c :: cs, acc =>
    if c.isWhitespace then
      if acc.isEmpty then splitWsAux cs [] else acc.reverse :: splitWsAux cs []
    else splitWsAux cs (c :: acc)

/-- Python `str.split()` with no argument: split on runs of whitespace,
discarding empty tokens. -/
def splitWs (s : List Char) : List (List Char) := splitWsAux s []

/-- Whether `needle` is a prefix of the second list (SQL/Python substring
matching building block). -/
def isPrefixL : List Char → List Char → Bool
  | [], _ => true
  | _ :: _, [] => false
  | a :: as, b :: bs => a == b && isPrefixL as bs

/-- Substring containment: Python `needle in hay`, SQL `hay LIKE '%needle%'`. -/
def containsSub (needle : List Char) : List Char → Bool
  | [] => isPrefixL needle []
  | c :: rest => isPrefixL needle (c :: rest) || containsSub needle rest

/-! ## Message search (`crud.py`, `AnalyticalCRUD.search_messages`) -/

/-- `crud.py` line 322: surviving search terms of a query.
`[term.strip().lower() for term in query.split() if len(term.strip()) > 2]` -/
def searchTerms (query : List Char) : List (List Char) :=
  ((splitWs query).filter (fun t => 2 < (stripL t).length)).map
    (fun t => lowerStr (stripL t))

/-- One per-term SQL match predicate:
`LOWER(message_text) LIKE '%term%'` (the bound term is already lowercased). -/
def termMatches (term text : List Char) : Bool :=
  containsSub term (lowerStr text)

/-- Number of per-term `CASE WHEN ... THEN 1 ELSE 0` summands that fire for a
row (`crud.py` line 382): one summand per entry of the term list. -/
def matchCount (terms : List (List Char)) (text : List Char) : ℕ :=
  (terms.filter (fun t => termMatches t text)).length

/-- SQL relevance score of a row (`crud.py` lines 381-383):
`(sum of CASE terms) * 1.0 / len(search_terms)`, over the FULL message text. -/
def relevanceScore (terms : List (List Char)) (text : List Char) : ℚ :=
  (matchCount terms text : ℚ) / (terms.length : ℚ)

/-- SQL `LEFT(message_text, 200)` (`crud.py` line 376). -/
def truncate200 (text : List Char) : List Char := text.take 200

/-- Python re-derivation of matched terms (`crud.py` lines 423-427): each term
tested by `term in row_text.lower()` where `row_text` is the text as returned
by the SQL query, i.e. already truncated to 200 characters. -/
def matchedTermsOf (terms : List (List Char)) (rowText : List Char) :
    List (List Char) :=
  terms.filter (fun t => containsSub t (lowerStr rowText))

/-! ## Rounding (Python `round`, banker's rounding, idealised over `Rat`) -/

/-- Round to the nearest integer, ties to the even neighbour
(Python `round` on an exactly-representable value). -/
def roundHalfEven (q : ℚ) : ℤ :=
  let f := ⌊q⌋
  if q - (f : ℚ) < 1/2 then f
  else if (1/2 : ℚ) < q - (f : ℚ) then f + 1
  else if f % 2 = 0 then f else f + 1

/-- Python `round(q, n)` idealised over the rationals. -/
def roundTo (n : ℕ) (q : ℚ) : ℚ :=
  (roundHalfEven (q * 10 ^ n) : ℚ) / 10 ^ n

/-- Python `round(q, 2)`. -/
def round2 (q : ℚ) : ℚ := roundTo 2 q

/-- Python `round(q, 3)`. -/
def round3 (q : ℚ) : ℚ := roundTo 3 q

/-! ## Message-search row shaping and the guard on surviving terms -/

/-- A search result row as assembled in `crud.py` lines 429-438; fields the
claims do not mention (channel, date, sentiment, media flag) are omitted. -/
structure MessageMatchRec where
  messageText : List Char
  relevance : ℚ
  matched : List (List Char)
deriving DecidableEq, Repr

/-- Shaping of one result row (`crud.py` lines 420-438): the SQL row carries
`LEFT(message_text, 200)` and the relevance computed over the full text; the
Python layer rounds the score to 3 decimals and re-derives matched terms
against the truncated text. -/
def processRow (terms : List (List Char)) (fullText : List Char) :
    MessageMatchRec :=
  { messageText := truncate200 fullText
    relevance := round3 (relevanceScore terms fullText)
    matched := matchedTermsOf terms (truncate200 fullText) }

/-- `search_messages` (`crud.py` lines 319-441) with the warehouse executor
abstracted as an oracle taking the surviving terms and returning the selected
rows (as full message texts) and the total count.  If no term survives the
guard at lines 324-325 returns immediately without consulting the oracle. -/
def searchMessages (runQuery : List (List Char) → List (List Char) × ℕ)
    (query : List Char) : List MessageMatchRec × ℕ :=
  let terms := searchTerms query
  if terms.isEmpty then ([], 0)
  else
    let (rows, total) := runQuery terms
    (rows.map (fun text => processRow terms text), total)

/-! ## Metadata annotator (`crud.py`, `AnalyticalCRUD.get_query_metadata`) -/

/-- Query complexity classification (`crud.py` lines 40-45), as a pure
function of elapsed milliseconds and row count. -/
def queryComplexity (executionTimeMs : ℚ) (rowCount : ℕ) : String :=
  if executionTimeMs < 100 ∧ rowCount < 1000 then "simple"
  else if executionTimeMs < 500 ∧ rowCount < 10000 then "moderate"
  else "complex"

/-! ## Pagination calculator (`main.py` lines 246-272) -/

/-- The pagination block of the search response. -/
structure PaginationInfo where
  page : ℕ
  pageSize : ℕ
  totalItems : ℕ
  totalPages : ℕ
  hasNext : Bool
  hasPrevious : Bool
deriving DecidableEq, Repr

/-- `total_pages = (total_count + page_size - 1) // page_size`
(`main.py` line 262). -/
def totalPagesCalc (totalCount pageSize : ℕ) : ℕ :=
  (totalCount + pageSize - 1) / pageSize

/-- `offset = (page - 1) * page_size` (`main.py` line 247). -/
def offsetOf (page pageSize : ℕ) : ℕ := (page - 1) * pageSize

/-- The `PaginationInfo` block built at `main.py` lines 265-272. -/
def paginationOf (page pageSize totalCount : ℕ) : PaginationInfo :=
  { page := page
    pageSize := pageSize
    totalItems := totalCount
    totalPages := totalPagesCalc totalCount pageSize
    hasNext := decide (page < totalPagesCalc totalCount pageSize)
    hasPrevious := decide (1 < page) }

/-! ## Trend classifier (`main.py` lines 349-376) -/

/-- `trends[:len(trends)//2]`. -/
def firstHalf (values : List ℚ) : List ℚ := values.take (values.length / 2)

/-- `trends[len(trends)//2:]`. -/
def secondHalf (values : List ℚ) : List ℚ := values.drop (values.length / 2)

/-- Mean of a list of rationals (`sum(...) / len(...)`). -/
def meanQ (l : List ℚ) : ℚ := l.sum / (l.length : ℚ)

/-- `avg_first` at `main.py` line 354. -/
def avgFirstOf (values : List ℚ) : ℚ := meanQ (firstHalf values)

/-- `avg_second` at `main.py` line 355. -/
def avgSecondOf (values : List ℚ) : ℚ := meanQ (secondHalf values)

/-- A raised Python exception in the trend computation. -/
inductive TrendError where
  | zeroDivision
deriving DecidableEq, Repr

/-- The `growth_rate` field of `TrendAnalysis` (`main.py` line 375):
`round(growth_rate, 2) if growth_rate else None` — a zero rate is falsy and
becomes `None`. -/
def growthField (growth : ℚ) : Option ℚ :=
  if growth = 0 then none else some (round2 growth)

/-- Trend direction and growth-rate field (`main.py` lines 350-376).  The
division `(avg_second - avg_first) / avg_first` raises `ZeroDivisionError`
in Python when `avg_first` is zero, modelled by the `Except` error case. -/
def computeTrendAnalysis (values : List ℚ) :
    Except TrendError (String × Option ℚ) :=
  if 2 ≤ values.length then
    let avgFirst := avgFirstOf values
    let avgSecond := avgSecondOf values
    if avgFirst * (105/100) < avgSecond then
      if avgFirst = 0 then .error .zeroDivision
      else .ok ("increasing", growthField ((avgSecond - avgFirst) / avgFirst * 100))
    else if avgSecond < avgFirst * (95/100) then
      if avgFirst = 0 then .error .zeroDivision
      else .ok ("decreasing", growthField ((avgSecond - avgFirst) / avgFirst * 100))
    else .ok ("stable", none)
  else .ok ("insufficient_data", none)

/-! ## Top products (`crud.py`, `AnalyticalCRUD.get_top_products`)

The SQL pipeline is modelled from the `product_mentions` CTE downward: a
`MentionRow` is one row of that CTE (one lowercased word token of one
in-window, medically-flagged message).  The tokenisation and window filter
producing those rows are upstream of the properties verified here. -/

/-- One row of the `product_mentions` CTE (`crud.py` lines 72-88). -/
structure MentionRow where
  product : String
  channel : String
  date : ℤ
deriving DecidableEq, Repr

/-- The fixed product vocabulary (`crud.py` lines 93-99). -/
def medicalVocab : List String :=
  ["paracetamol", "ibuprofen", "aspirin", "amoxicillin", "metformin",
   "insulin", "morphine", "codeine", "tramadol", "diclofenac",
   "prednisolone", "dexamethasone", "omeprazole", "ranitidine",
   "simvastatin", "atorvastatin", "lisinopril", "amlodipine",
   "metronidazole", "ciprofloxacin", "azithromycin", "doxycycline",
   "hydrochlorothiazide", "furosemide", "warfarin", "heparin",
   "salbutamol", "prednisolone", "hydrocortisone", "betamethasone"]

/-- The `medical_products` CTE (`crud.py` lines 89-102): mention rows whose
token is in the vocabulary and has length at least 4.  No `DISTINCT` — one
output row per qualifying mention row. -/
def medicalProducts (rows : List MentionRow) : List MentionRow :=
  rows.filter (fun r => r.product ∈ medicalVocab ∧ 4 ≤ r.product.length)

/-- `MAX` aggregate over a (nonempty) group of dates. -/
def maxDate : List ℤ → ℤ
  | [] => 0
  | d :: ds => ds.foldl max d

/-- One row of the `product_stats` CTE (aggregates the claims mention). -/
structure ProductStat where
  name : String
  mentionCount : ℕ
  lastMentioned : ℤ
deriving DecidableEq, Repr

/-- The `product_stats` CTE (`crud.py` lines 103-114): the inner join of
`product_mentions` with the (multiset) `medical_products` CTE, grouped by
product.  Each mention row of a product joins every `medical_products` row of
the same product, so `COUNT(*)` is the product of the two group sizes. -/
def productStats (rows : List MentionRow) : List ProductStat :=
  (((medicalProducts rows).map (·.product)).dedup).map (fun p =>
    let pmGrp := rows.filter (fun r => r.product = p)
    let mpGrp := (medicalProducts rows).filter (fun r => r.product = p)
    { name := p
      mentionCount := pmGrp.length * mpGrp.length
      lastMentioned := maxDate (pmGrp.map (·.date)) })

/-- `ORDER BY mention_count DESC, last_mentioned DESC` (`crud.py` line 124):
`a` may precede `b` exactly when this relation holds. -/
def statBefore (a b : ProductStat) : Prop :=
  b.mentionCount < a.mentionCount ∨
    (a.mentionCount = b.mentionCount ∧ b.lastMentioned ≤ a.lastMentioned)

instance : DecidableRel statBefore := fun a b => by
  unfold statBefore; infer_instance

instance : IsTotal ProductStat statBefore where
  total a b := by
    rcases lt_trichotomy a.mentionCount b.mentionCount with h | h | h
    · exact Or.inr (Or.inl h)
    · rcases le_total b.lastMentioned a.lastMentioned with h2 | h2
      · exact Or.inl (Or.inr ⟨h, h2⟩)
      · exact Or.inr (Or.inr ⟨h.symm, h2⟩)
    · exact Or.inl (Or.inl h)

instance : IsTrans ProductStat statBefore where
  trans a b c hab hbc := by
    rcases hab with h1 | ⟨h1, h1d⟩ <;> rcases hbc with h2 | ⟨h2, h2d⟩
    · exact Or.inl (h2.trans h1)
    · exact Or.inl (h2 ▸ h1)
    · exact Or.inl (h1 ▸ h2)
    · exact Or.inr ⟨h1.trans h2, h2d.trans h1d⟩

/-- `get_top_products` result list (`crud.py` lines 71-126): aggregate, keep
groups with `mention_count >= 2`, order by the sort keys, cap at `limit`. -/
def getTopProducts (rows : List MentionRow) (limit : ℕ) : List ProductStat :=
  (((productStats rows).filter (fun s => 2 ≤ s.mentionCount)).insertionSort
      statBefore).take limit

/-! ## Channel activity (`crud.py`, `AnalyticalCRUD.get_channel_activity`)

Message timestamps are modelled at day precision (`DATE(message_date)` is the
identity), which the verified properties do not depend on.  The per-day
activity list, `MODE()` peak hour and top-posting-hours sub-queries are
orthogonal to the channel-existence and summary-statistics properties and are
not modelled. -/

/-- A `marts.dim_channels` row (fields the claims need). -/
structure DimChannel where
  channelKey : ℕ
  channelName : String
  subscriberCount : ℕ
deriving DecidableEq, Repr

/-- A `marts.fct_messages` row (fields the claims need). -/
structure FctMessage where
  channelKey : ℕ
  channel : String
  messageDate : ℤ
  hasMedia : Bool
  textLength : ℕ
  engagementScore : ℚ
  isPharmacy : Bool
  isMedEquipment : Bool
  isHealthcare : Bool
deriving DecidableEq, Repr

/-- The warehouse visible to the channel-activity operation. -/
structure Warehouse where
  channels : List DimChannel
  messages : List FctMessage
deriving Repr

/-- Channel-name normalisation (`crud.py` lines 167-168): Python
`channel_name.startswith('@')` tests the leading character. -/
def normalizeChannel (name : String) : String :=
  if name.data.head? = some '@' then name else "@" ++ name

/-- One row of the channel-info query result (`crud.py` lines 173-186). -/
structure ChannelInfoRow where
  channelName : String
  totalMessages : ℕ
deriving DecidableEq, Repr

/-- The channel-info query (`crud.py` lines 173-188): `dim_channels` rows with
the requested name, each with `COUNT(m.message_id)` over the left join against
`fct_messages` on the channel key (zero when no message matches). -/
def channelInfoRows (db : Warehouse) (name : String) : List ChannelInfoRow :=
  (db.channels.filter (fun c => c.channelName = name)).map (fun c =>
    { channelName := c.channelName
      totalMessages :=
        (db.messages.filter (fun m => m.channelKey = c.channelKey)).length })

/-- The window filter shared by the daily/summary queries (`crud.py`):
`channel = :channel_name AND message_date >= :cutoff_date`. -/
def windowMessages (db : Warehouse) (name : String) (cutoff : ℤ) :
    List FctMessage :=
  db.messages.filter (fun m => m.channel = name ∧ cutoff ≤ m.messageDate)

/-- A SQL `SUM` of natural summands: NULL (`none`) over zero rows. -/
def sqlSumN (l : List ℕ) : Option ℕ :=
  if l.isEmpty then none else some l.sum

/-- A SQL `AVG`: NULL (`none`) over zero rows. -/
def sqlAvg (l : List ℚ) : Option ℚ :=
  if l.isEmpty then none else some (l.sum / (l.length : ℚ))

/-- The single row of the summary aggregate query (`crud.py` lines 234-246).
`COUNT` aggregates are never NULL, but `SUM` and `AVG` over an empty row set
are SQL NULL, carried through the row mapping as Python `None` and modelled
here as `none`. -/
structure SummaryRow where
  totalMessages : ℕ
  totalMedia : Option ℕ
  avgMessageLength : Option ℚ
  avgSentiment : Option ℚ
  medicalMessages : Option ℕ
  priceMessages : Option ℕ
  activeDays : ℕ
deriving DecidableEq, Repr

/-- The summary aggregate query (`crud.py` lines 234-246) over the window
rows: counts, NULL-able sums of `CASE WHEN ... THEN 1 ELSE 0`, NULL-able
averages, and the distinct-day count. -/
def summaryRowOf (msgs : List FctMessage) : SummaryRow :=
  { totalMessages := msgs.length
    totalMedia := sqlSumN (msgs.map (fun m => if m.hasMedia then 1 else 0))
    avgMessageLength := sqlAvg (msgs.map (fun m => (m.textLength : ℚ)))
    avgSentiment := sqlAvg (msgs.map (·.engagementScore))
    medicalMessages := sqlSumN (msgs.map (fun m =>
      if m.isPharmacy || m.isMedEquipment || m.isHealthcare then 1 else 0))
    priceMessages := sqlSumN (msgs.map (fun m => if m.isPharmacy then 1 else 0))
    activeDays := ((msgs.map (·.messageDate)).dedup).length }

/-- The `summary_stats` dictionary (`crud.py` lines 256-266). -/
structure SummaryStats where
  totalMessages : ℕ
  totalMedia : ℕ
  mediaPercentage : ℚ
  avgMessageLength : ℚ
  avgSentiment : ℚ
  medicalMessages : Option ℕ
  priceMessages : Option ℕ
  activeDays : ℕ
  avgDailyPosts : ℚ
deriving DecidableEq, Repr

/-- A failure of the channel-activity operation: the distinct not-found error
(`raise ValueError`, `crud.py` line 191), the TypeError raised by the summary
shaping when a NULL aggregate meets the division at `crud.py` line 259, and
any other execution failure. -/
inductive ActivityError where
  | channelNotFound (name : String)
  | typeError
  | executionFailure
deriving DecidableEq, Repr

/-- The Python shaping of the summary row (`crud.py` lines 253-266).  The
dict literal evaluates its entries in order: `media_percentage` at line 259
computes `row[total_media] / max(row[total_messages], 1)`, which raises
TypeError when `total_media` is NULL (`None / int`), i.e. exactly when the
window holds zero rows — before `avg_daily_posts` at line 265 is reached.
The falsy guards at lines 260-261 turn a NULL (or zero) average into 0.
`medical_messages` and `price_messages` are passed through unshaped. -/
def shapeSummaryStats (row : SummaryRow) : Except ActivityError SummaryStats :=
  match row.totalMedia with
  | none => .error .typeError
  | some media =>
      .ok { totalMessages := row.totalMessages
            totalMedia := media
            mediaPercentage :=
              round2 (((media : ℚ)
                / ((max row.totalMessages 1 : ℕ) : ℚ)) * 100)
            avgMessageLength :=
              match row.avgMessageLength with
              | none => 0
              | some v => if v = 0 then 0 else round2 v
            avgSentiment :=
              match row.avgSentiment with
              | none => 0
              | some v => if v = 0 then 0 else round3 v
            medicalMessages := row.medicalMessages
            priceMessages := row.priceMessages
            activeDays := row.activeDays
            avgDailyPosts :=
              round2 ((row.totalMessages : ℚ)
                / ((max row.activeDays 1 : ℕ) : ℚ)) }

/-- `get_channel_activity` (`crud.py` lines 152-288) restricted to the outputs
the claims mention: normalise the name, look up the channel dimension, fail
with the not-found error when no row matches, otherwise run the summary
aggregate over the window and shape it — propagating the TypeError the
shaping raises on an empty window. -/
def getChannelActivity (db : Warehouse) (rawName : String) (cutoff : ℤ) :
    Except ActivityError (ChannelInfoRow × SummaryStats) :=
  match channelInfoRows db (normalizeChannel rawName) with
  | [] => .error (.channelNotFound (normalizeChannel rawName))
  | row :: _ =>
      match shapeSummaryStats (summaryRowOf
          (windowMessages db (normalizeChannel rawName) cutoff)) with
      | .error e => .error e
      | .ok stats => .ok (row, stats)

/-- The HTTP status mapping of the channel-activity endpoint (`main.py` lines
219-223): the `ValueError` raised for a missing channel maps to 404, any
other exception (the shaping TypeError included) to 500. -/
def activityHttpStatus : ActivityError → ℕ
  | .channelNotFound _ => 404
  | .typeError => 500
  | .executionFailure => 500

/-! ## Claim theorems -/

/-- C6: the metadata annotator is a pure function of elapsed time and row
count classifying complexity by exact thresholds evaluated in order:
time < 100 and rows < 1000 gives "simple"; otherwise time < 500 and
rows < 10000 gives "moderate"; otherwise "complex"; in particular
(50 ms, 500 rows) is "simple", (200 ms, 5000 rows) is "moderate" and
(600 ms, 50 rows) is "complex". -/
theorem metadata_complexity_thresholds :
    (∀ (t : ℚ) (r : ℕ), queryComplexity t r = "simple" ↔ t < 100 ∧ r < 1000)
    ∧ (∀ (t : ℚ) (r : ℕ), queryComplexity t r = "moderate" ↔
        ¬(t < 100 ∧ r < 1000) ∧ (t < 500 ∧ r < 10000))
    ∧ (∀ (t : ℚ) (r : ℕ), queryComplexity t r = "complex" ↔
        ¬(t < 100 ∧ r < 1000) ∧ ¬(t < 500 ∧ r < 10000))
    ∧ queryComplexity 50 500 = "simple"
    ∧ queryComplexity 200 5000 = "moderate"
    ∧ queryComplexity 600 50 = "complex" := by
  have hsm : ("simple" : String) ≠ "moderate" := by decide
  have hsc : ("simple" : String) ≠ "complex" := by decide
  have hmc : ("moderate" : String) ≠ "complex" := by decide
  refine ⟨?_, ?_, ?_, by decide, by decide, by decide⟩ <;>
    · intro t r
      unfold queryComplexity
      split_ifs with h1 h2 <;> simp_all

/-- C4: message search tokenizes by splitting on whitespace, discarding
tokens of length at most 2 and lower-casing survivors; every surviving term
has length greater than 2, and when no token survives the operation returns
an empty match list with total count 0, without consulting the query
executor (the result is the same for every executor oracle). -/
theorem search_guard_no_surviving_terms (query : List Char) :
    (∀ t ∈ searchTerms query, 2 < t.length)
    ∧ (searchTerms query = [] →
        ∀ runQuery, searchMessages runQuery query = ([], 0)) := by
  constructor
  · intro t ht
    unfold searchTerms at ht
    simp only [List.mem_map, List.mem_filter, decide_eq_true_eq] at ht
    obtain ⟨u, ⟨_, hlen⟩, rfl⟩ := ht
    simpa [lowerStr] using hlen
  · intro h runQuery
    unfold searchMessages
    simp [h]

/-- C4 witness: the query "ab c" has no surviving token and search returns
no matches and count 0 for an arbitrary concrete executor. -/
theorem search_guard_no_surviving_terms_witness :
    searchMessages (fun _ => (["medicine".data], 5)) "ab c".data = ([], 0) :=
  (search_guard_no_surviving_terms "ab c".data).2 (by decide) _

/-- C2: the matched-terms list of a search row is derived from the message
text truncated to 200 characters (the text as returned by the SQL query),
independently of the relevance score, which the SQL computes over the full
text; on a concrete message whose only occurrence of the term "abcd" starts
at character 200, the term matches the full text and raises the relevance
score to 1 (it contributes 1/k = 1/2: the truncated text alone scores 1/2),
yet it is absent from the matched-terms list. -/
theorem search_matched_terms_truncation_divergence :
    (∀ terms fullText, (processRow terms fullText).matched
        = matchedTermsOf terms (truncate200 fullText))
    ∧ (relevanceScore (searchTerms "efgh abcd".data)
        ("efgh".data ++ List.replicate 196 'x' ++ "abcd".data) = 1)
    ∧ (relevanceScore (searchTerms "efgh abcd".data)
        (truncate200 ("efgh".data ++ List.replicate 196 'x' ++ "abcd".data))
          = 1/2)
    ∧ (termMatches "abcd".data
        ("efgh".data ++ List.replicate 196 'x' ++ "abcd".data) = true)
    ∧ ((processRow (searchTerms "efgh abcd".data)
          ("efgh".data ++ List.replicate 196 'x' ++ "abcd".data)).matched
        = ["efgh".data])
    ∧ "abcd".data ∉ (processRow (searchTerms "efgh abcd".data)
        ("efgh".data ++ List.replicate 196 'x' ++ "abcd".data)).matched := by
  have h1 : matchCount (searchTerms "efgh abcd".data)
      ("efgh".data ++ List.replicate 196 'x' ++ "abcd".data) = 2 := by decide
  have h2 : matchCount (searchTerms "efgh abcd".data)
      (truncate200 ("efgh".data ++ List.replicate 196 'x' ++ "abcd".data))
        = 1 := by decide
  have hlen : (searchTerms "efgh abcd".data).length = 2 := by decide
  refine ⟨fun terms fullText => rfl, ?_, ?_, by decide, by decide, by decide⟩
  · unfold relevanceScore
    rw [h1, hlen]; norm_num
  · unfold relevanceScore
    rw [h2, hlen]; norm_num

/-- C3 counterexample: for the query "abcd abcd" (two identical surviving
terms, k = 2) and message text "abcd", the SQL relevance score is 2/2 = 1,
while the number of distinct matching terms divided by k is 1/2: the score
counts list entries with multiplicity, not distinct terms. -/
theorem relevance_score_distinct_counterexample :
    relevanceScore (searchTerms "abcd abcd".data) "abcd".data
      ≠ (((searchTerms "abcd abcd".data).dedup.filter
            (fun t => termMatches t "abcd".data)).length : ℚ)
          / ((searchTerms "abcd abcd".data).length : ℚ) := by
  have h1 : matchCount (searchTerms "abcd abcd".data) "abcd".data = 2 := by
    decide
  have h2 : ((searchTerms "abcd abcd".data).dedup.filter
      (fun t => termMatches t "abcd".data)).length = 1 := by decide
  have hlen : (searchTerms "abcd abcd".data).length = 2 := by decide
  unfold relevanceScore
  rw [h1, h2, hlen]
  norm_num

/-- C3 (amended): for every search with k surviving terms (k at least 1), the
SQL relevance score of a row equals the number of term-list entries whose
case-insensitive substring predicate matches the full message text (counted
with multiplicity; equal to the distinct-term count whenever the surviving
terms are pairwise distinct) divided by k; it lies in {0, 1/k, ..., 1},
never outside [0, 1], and depends on the text only through which terms
match (so it is not weighted by term frequency or position). -/
theorem relevance_score_coverage (terms : List (List Char)) (text : List Char)
    (h : terms ≠ []) :
    relevanceScore terms text
        = (matchCount terms text : ℚ) / (terms.length : ℚ)
    ∧ (∃ m : ℕ, m ≤ terms.length
        ∧ relevanceScore terms text = (m : ℚ) / (terms.length : ℚ))
    ∧ 0 ≤ relevanceScore terms text
    ∧ relevanceScore terms text ≤ 1
    ∧ (terms.Nodup →
        relevanceScore terms text =
          ((terms.dedup.filter (fun t => termMatches t text)).length : ℚ)
            / (terms.length : ℚ))
    ∧ ∀ text2, (∀ t ∈ terms, termMatches t text = termMatches t text2) →
        relevanceScore terms text = relevanceScore terms text2 := by
  have hlen : 0 < terms.length := List.length_pos.mpr h
  have hlenQ : (0 : ℚ) < (terms.length : ℚ) := by exact_mod_cast hlen
  have hcnt : matchCount terms text ≤ terms.length := by
    unfold matchCount
    exact List.length_filter_le _ _
  refine ⟨rfl, ⟨matchCount terms text, hcnt, rfl⟩, ?_, ?_, ?_, ?_⟩
  · exact div_nonneg (Nat.cast_nonneg _) (Nat.cast_nonneg _)
  · unfold relevanceScore
    rw [div_le_one hlenQ]
    exact_mod_cast hcnt
  · intro hnd
    unfold relevanceScore matchCount
    rw [List.dedup_eq_self.mpr hnd]
  · intro text2 hsame
    unfold relevanceScore matchCount
    rw [List.filter_congr (fun t ht => by rw [hsame t ht])]

/-- C3 witness: a one-term search scored against a concrete text has its
score between 0 and 1 and of the form m/k. -/
theorem relevance_score_coverage_witness :
    0 ≤ relevanceScore ["abc".data] "xabcy".data
    ∧ relevanceScore ["abc".data] "xabcy".data ≤ 1
    ∧ ∃ m : ℕ, m ≤ 1 ∧ relevanceScore ["abc".data] "xabcy".data
        = (m : ℚ) / ((1 : ℕ) : ℚ) := by
  have h := relevance_score_coverage ["abc".data] "xabcy".data (by decide)
  exact ⟨h.2.2.1, h.2.2.2.1, h.2.1⟩

/-- Helper: the integer formula `(total + size - 1) / size` is the ceiling of
`total / size`. -/
theorem totalPagesCalc_eq_ceil (totalItems pageSize : ℕ) (hs : 1 ≤ pageSize) :
    (totalPagesCalc totalItems pageSize : ℤ)
      = ⌈(totalItems : ℚ) / (pageSize : ℚ)⌉ := by
  have hspos : 0 < pageSize := hs
  have hdm := Nat.div_add_mod (totalItems + pageSize - 1) pageSize
  have hmod : (totalItems + pageSize - 1) % pageSize < pageSize :=
    Nat.mod_lt _ hspos
  unfold totalPagesCalc
  set q := (totalItems + pageSize - 1) / pageSize with hq
  set r := (totalItems + pageSize - 1) % pageSize with hr
  obtain ⟨h1, h2⟩ :
      totalItems ≤ pageSize * q ∧ pageSize * q < totalItems + pageSize := by
    generalize hmm : pageSize * q = m at hdm
    omega
  have hsQ : (0 : ℚ) < (pageSize : ℚ) := by exact_mod_cast hspos
  have h1Q : (totalItems : ℚ) ≤ (pageSize : ℚ) * (q : ℚ) := by exact_mod_cast h1
  have h2Q : (pageSize : ℚ) * (q : ℚ) < (totalItems : ℚ) + (pageSize : ℚ) := by
    exact_mod_cast h2
  rw [eq_comm, Int.ceil_eq_iff]
  constructor
  · rw [lt_div_iff₀ hsQ]
    push_cast
    linarith
  · rw [div_le_iff₀ hsQ]
    push_cast
    linarith

/-- C5: for every page, page size (both at least 1) and total count, the
pagination calculator yields total_pages equal to the ceiling of
total_items / page_size, has_next exactly when page < total_pages,
has_previous exactly when page > 1, and query offset (page - 1) * page_size. -/
theorem pagination_calculator_spec (page pageSize totalItems : ℕ)
    (_hp : 1 ≤ page) (hs : 1 ≤ pageSize) :
    (((paginationOf page pageSize totalItems).totalPages : ℤ)
        = ⌈(totalItems : ℚ) / (pageSize : ℚ)⌉)
    ∧ ((paginationOf page pageSize totalItems).hasNext = true
        ↔ page < (paginationOf page pageSize totalItems).totalPages)
    ∧ ((paginationOf page pageSize totalItems).hasPrevious = true ↔ 1 < page)
    ∧ offsetOf page pageSize = (page - 1) * pageSize := by
  refine ⟨totalPagesCalc_eq_ceil totalItems pageSize hs, ?_, ?_, rfl⟩
  · unfold paginationOf
    simp
  · unfold paginationOf
    simp

/-- C5 witness: total_items 95 with page_size 20 gives total_pages 5, and
page 5 gives has_next false and has_previous true; page 1 of the same search
gives has_previous false. -/
theorem pagination_calculator_spec_witness :
    (paginationOf 5 20 95).totalPages = 5
    ∧ (paginationOf 5 20 95).hasNext = false
    ∧ (paginationOf 5 20 95).hasPrevious = true
    ∧ (paginationOf 1 20 95).hasPrevious = false
    ∧ ((paginationOf 5 20 95).totalPages : ℤ) = ⌈(95 : ℚ) / (20 : ℚ)⌉ := by
  have h := pagination_calculator_spec 5 20 95 (by decide) (by decide)
  exact ⟨by decide, by decide, by decide, by decide, h.1⟩

/-- C7: every product returned by the top-products operation has mention
count at least 2, and the returned list is ordered by mention count
descending with ties broken by most-recent-mention descending (hence each
element is followed only by elements with no larger mention count). -/
theorem top_products_min_mentions_and_order
    (rows : List MentionRow) (limit : ℕ) :
    (∀ s ∈ getTopProducts rows limit, 2 ≤ s.mentionCount)
    ∧ (getTopProducts rows limit).Pairwise statBefore
    ∧ (getTopProducts rows limit).Pairwise
        (fun a b => b.mentionCount ≤ a.mentionCount) := by
  have hsorted :
      (((productStats rows).filter
          (fun s => 2 ≤ s.mentionCount)).insertionSort statBefore).Pairwise
        statBefore :=
    List.sorted_insertionSort statBefore _
  have hpair : (getTopProducts rows limit).Pairwise statBefore :=
    hsorted.sublist (List.take_sublist _ _)
  refine ⟨?_, hpair, ?_⟩
  · intro s hs
    have hs2 : s ∈ ((productStats rows).filter
        (fun s => 2 ≤ s.mentionCount)).insertionSort statBefore :=
      List.take_subset _ _ hs
    rw [List.mem_insertionSort] at hs2
    have := List.of_mem_filter hs2
    simpa using this
  · exact hpair.imp (fun h => by
      rcases h with h | ⟨h, _⟩
      · exact le_of_lt h
      · exact le_of_eq h.symm)

/-- C7 witness: on a concrete mention table, a product with a single mention
is absent and the returned head element has mention count at least 2. -/
theorem top_products_min_mentions_and_order_witness :
    2 ≤ (ProductStat.mk "aspirin" 9 7).mentionCount :=
  (top_products_min_mentions_and_order
    [⟨"paracetamol", "@a", 5⟩, ⟨"paracetamol", "@b", 9⟩,
     ⟨"ibuprofen", "@a", 3⟩, ⟨"aspirin", "@a", 1⟩, ⟨"aspirin", "@b", 2⟩,
     ⟨"aspirin", "@b", 7⟩, ⟨"xyzzy", "@a", 4⟩] 10).1 _ (by decide)

/-- Helper: a sum of per-row `CASE WHEN p THEN 1 ELSE 0` equals the count of
rows satisfying `p`. -/
theorem sum_ite_eq_length_filter {α : Type} (p : α → Bool) :
    ∀ l : List α,
      (l.map (fun a => if p a then 1 else 0)).sum = (l.filter p).length
  | [] => rfl
  | a :: tl => by
    by_cases hpa : p a <;>
      simp [hpa, sum_ite_eq_length_filter p tl, List.filter_cons,
        Nat.add_comm]

/-- Helper: over a nonempty window the `total_media` aggregate is non-NULL
and equals the media-row count. -/
theorem summaryRow_totalMedia_some (msgs : List FctMessage) (h : msgs ≠ []) :
    (summaryRowOf msgs).totalMedia
      = some ((msgs.filter (·.hasMedia)).length) := by
  cases msgs with
  | nil => exact absurd rfl h
  | cons a tl =>
    show sqlSumN ((a :: tl).map (fun m => if m.hasMedia then 1 else 0))
        = some (((a :: tl).filter (·.hasMedia)).length)
    unfold sqlSumN
    rw [if_neg (by simp)]
    exact congrArg some (sum_ite_eq_length_filter _ _)

/-- Helper: over the empty window the shaping raises (the TypeError case). -/
theorem shapeSummaryStats_empty :
    shapeSummaryStats (summaryRowOf []) = .error .typeError := rfl

/-- Helper: the only error the summary shaping produces is the TypeError. -/
theorem shapeSummaryStats_error_eq (row : SummaryRow) (e : ActivityError)
    (h : shapeSummaryStats row = .error e) : e = .typeError := by
  unfold shapeSummaryStats at h
  cases hm : row.totalMedia with
  | none =>
    rw [hm] at h
    injection h with h2
    exact h2.symm
  | some media =>
    rw [hm] at h
    exact Except.noConfusion h

/-- C8: when the normalized channel name (prefixed with a marker if absent)
matches no row of the channel dimension, channel activity fails with the
distinct not-found error, which the HTTP layer maps to status 404 (as opposed
to 500 for any other failure); a channel present in the dimension never
triggers the not-found error — with no in-window messages the operation
instead raises the shaping TypeError (NULL SUM aggregate, mapped to 500),
and with a nonempty window it succeeds. -/
theorem channel_activity_not_found
    (db : Warehouse) (rawName : String) (cutoff : ℤ) :
    ((∀ c ∈ db.channels, c.channelName ≠ normalizeChannel rawName) →
        getChannelActivity db rawName cutoff
            = .error (.channelNotFound (normalizeChannel rawName))
        ∧ activityHttpStatus (.channelNotFound (normalizeChannel rawName))
            = 404
        ∧ activityHttpStatus .typeError = 500
        ∧ activityHttpStatus .executionFailure = 500)
    ∧ ((∃ c ∈ db.channels, c.channelName = normalizeChannel rawName) →
        (∀ s, getChannelActivity db rawName cutoff
            ≠ .error (.channelNotFound s))
        ∧ (windowMessages db (normalizeChannel rawName) cutoff = [] →
            getChannelActivity db rawName cutoff = .error .typeError)
        ∧ (windowMessages db (normalizeChannel rawName) cutoff ≠ [] →
            ∃ res, getChannelActivity db rawName cutoff = .ok res)) := by
  constructor
  · intro hnone
    have hfil : db.channels.filter
        (fun c => c.channelName = normalizeChannel rawName) = [] := by
      rw [List.filter_eq_nil_iff]
      intro c hc
      simp [hnone c hc]
    refine ⟨?_, rfl, rfl, rfl⟩
    unfold getChannelActivity channelInfoRows
    rw [hfil]
    rfl
  · rintro ⟨c, hc, hname⟩
    have hmem : c ∈ db.channels.filter
        (fun c => c.channelName = normalizeChannel rawName) := by
      rw [List.mem_filter]
      exact ⟨hc, by simp [hname]⟩
    obtain ⟨row, rest, hrows⟩ :
        ∃ row rest, channelInfoRows db (normalizeChannel rawName)
          = row :: rest := by
      cases hcase : channelInfoRows db (normalizeChannel rawName) with
      | nil =>
        exfalso
        unfold channelInfoRows at hcase
        rw [List.map_eq_nil_iff] at hcase
        rw [hcase] at hmem
        exact List.not_mem_nil c hmem
      | cons r t => exact ⟨r, t, rfl⟩
    refine ⟨?_, ?_, ?_⟩
    · intro s hcontra
      unfold getChannelActivity at hcontra
      rw [hrows] at hcontra
      cases hshape : shapeSummaryStats (summaryRowOf
          (windowMessages db (normalizeChannel rawName) cutoff)) with
      | error e =>
        have he := shapeSummaryStats_error_eq _ _ hshape
        rw [hshape, he] at hcontra
        simp at hcontra
      | ok stats =>
        rw [hshape] at hcontra
        simp at hcontra
    · intro hwin
      unfold getChannelActivity
      rw [hrows, hwin, shapeSummaryStats_empty]
    · intro hwin
      have hsome := summaryRow_totalMedia_some _ hwin
      unfold getChannelActivity
      rw [hrows]
      unfold shapeSummaryStats
      rw [hsome]
      exact ⟨_, rfl⟩

/-- C8 witness: on a warehouse holding only the channel named with marker
"@foo", requesting "bar" yields the not-found error mapped to 404; requesting
"foo" with no messages does not trigger the not-found error but the shaping
TypeError (500), and with one in-window message it succeeds. -/
theorem channel_activity_not_found_witness :
    getChannelActivity ⟨[⟨1, "@foo", 0⟩], []⟩ "bar" 0
        = .error (.channelNotFound "@bar")
    ∧ activityHttpStatus (.channelNotFound "@bar") = 404
    ∧ getChannelActivity ⟨[⟨1, "@foo", 0⟩], []⟩ "foo" 0 = .error .typeError
    ∧ activityHttpStatus .typeError = 500
    ∧ ∃ res, getChannelActivity
        ⟨[⟨1, "@foo", 0⟩], [⟨1, "@foo", 5, true, 40, 2, true, false, false⟩]⟩
        "foo" 0 = .ok res := by
  have h1 := (channel_activity_not_found ⟨[⟨1, "@foo", 0⟩], []⟩ "bar" 0).1
    (by decide)
  have h2 := ((channel_activity_not_found ⟨[⟨1, "@foo", 0⟩], []⟩ "foo" 0).2
    ⟨⟨1, "@foo", 0⟩, by simp, by decide⟩).2.1 rfl
  have hw : windowMessages
      ⟨[⟨1, "@foo", 0⟩], [⟨1, "@foo", 5, true, 40, 2, true, false, false⟩]⟩
      (normalizeChannel "foo") 0
      = [⟨1, "@foo", 5, true, 40, 2, true, false, false⟩] := rfl
  have h3 := ((channel_activity_not_found
      ⟨[⟨1, "@foo", 0⟩], [⟨1, "@foo", 5, true, 40, 2, true, false, false⟩]⟩
      "foo" 0).2
    ⟨⟨1, "@foo", 0⟩, by simp, by decide⟩).2.2
    (by rw [hw]; exact List.cons_ne_nil _ _)
  have hnorm : normalizeChannel "bar" = "@bar" := by decide
  rw [hnorm] at h1
  exact ⟨h1.1, h1.2.1, h2, rfl, h3⟩

/-- C9 counterexample: over a window with zero messages (hence zero active
days) the summary statistics are never computed: the SUM aggregate is SQL
NULL and the shaping raises TypeError at the media_percentage entry
(None / max(0, 1)) before any division happens, so neither media_percentage
nor avg_daily_posts is produced for that input and the endpoint answers 500. -/
theorem summary_stats_zero_messages_counterexample :
    (summaryRowOf []).totalMedia = none
    ∧ shapeSummaryStats (summaryRowOf []) = .error .typeError
    ∧ getChannelActivity ⟨[⟨1, "@foo", 0⟩], []⟩ "foo" 0 = .error .typeError
    ∧ activityHttpStatus .typeError = 500 :=
  ⟨rfl, rfl, rfl, rfl⟩

/-- C9 (amended): for every window holding at least one message the summary
shaping succeeds and computes media_percentage as
total_media / max(total_messages, 1) times 100 and avg_daily_posts as
total_messages / max(active_days, 1) (both rounded as in the source); the
floored denominators are at least 1 — indeed total_messages and active_days
are themselves at least 1 there — so no division by zero ever occurs.  For a
window with zero messages the statistics are never computed: the SUM
aggregate is NULL and the shaping raises TypeError before any division (see
the counterexample theorem). -/
theorem summary_stats_floored_denominators (msgs : List FctMessage)
    (h : msgs ≠ []) :
    ∃ stats, shapeSummaryStats (summaryRowOf msgs) = .ok stats
      ∧ stats.mediaPercentage
          = round2 ((((msgs.filter (·.hasMedia)).length : ℚ)
              / ((max msgs.length 1 : ℕ) : ℚ)) * 100)
      ∧ stats.avgDailyPosts
          = round2 ((msgs.length : ℚ)
              / ((max ((msgs.map (·.messageDate)).dedup).length 1 : ℕ) : ℚ))
      ∧ 1 ≤ max msgs.length 1
      ∧ 1 ≤ max ((msgs.map (·.messageDate)).dedup).length 1
      ∧ ((max msgs.length 1 : ℕ) : ℚ) ≠ 0
      ∧ ((max ((msgs.map (·.messageDate)).dedup).length 1 : ℕ) : ℚ) ≠ 0
      ∧ 1 ≤ msgs.length
      ∧ 1 ≤ ((msgs.map (·.messageDate)).dedup).length := by
  have hsome := summaryRow_totalMedia_some msgs h
  have hlen : 1 ≤ msgs.length := List.length_pos.mpr h
  have hdays : 1 ≤ ((msgs.map (·.messageDate)).dedup).length := by
    apply List.length_pos.mpr
    rw [Ne, List.dedup_eq_nil, List.map_eq_nil_iff]
    exact h
  unfold shapeSummaryStats
  rw [hsome]
  refine ⟨_, rfl, rfl, rfl, le_max_right _ _, le_max_right _ _,
    ?_, ?_, hlen, hdays⟩
  · have : 0 < max msgs.length 1 := lt_of_lt_of_le one_pos (le_max_right _ _)
    exact_mod_cast this.ne.symm
  · have : 0 < max ((msgs.map (·.messageDate)).dedup).length 1 :=
      lt_of_lt_of_le one_pos (le_max_right _ _)
    exact_mod_cast this.ne.symm

/-- C9 witness: a one-message window passes the nonempty hypothesis and the
shaping succeeds with both statistics computed over denominators floored at
1. -/
theorem summary_stats_floored_denominators_witness :
    ∃ stats, shapeSummaryStats (summaryRowOf
        [⟨1, "@foo", 5, true, 40, 2, true, false, false⟩]) = .ok stats
      ∧ stats.avgDailyPosts
          = round2 ((([⟨1, "@foo", 5, true, 40, 2, true, false, false⟩]
                : List FctMessage).length : ℚ)
              / ((max (([⟨1, "@foo", 5, true, 40, 2, true, false,
                  false⟩].map (FctMessage.messageDate)).dedup).length
                  1 : ℕ) : ℚ)) := by
  obtain ⟨stats, hok, _, hdaily, _⟩ :=
    summary_stats_floored_denominators
      [⟨1, "@foo", 5, true, 40, 2, true, false, false⟩] (by simp)
  exact ⟨stats, hok, hdaily⟩

/-- C1 counterexample: the all-10 series is classified "stable", but its
growth-rate field is omitted (None), not 0: the rounding expression
`round(growth_rate, 2) if growth_rate else None` maps the falsy 0.0 to None. -/
theorem trend_classifier_stable_counterexample :
    computeTrendAnalysis [10, 10, 10, 10, 10, 10] = .ok ("stable", none)
    ∧ computeTrendAnalysis [10, 10, 10, 10, 10, 10]
        ≠ .ok ("stable", some 0) := by
  have hf : avgFirstOf [10, 10, 10, 10, 10, 10] = 10 := by
    norm_num [avgFirstOf, firstHalf, meanQ]
  have hs : avgSecondOf [10, 10, 10, 10, 10, 10] = 10 := by
    norm_num [avgSecondOf, secondHalf, meanQ]
  have h : computeTrendAnalysis [10, 10, 10, 10, 10, 10]
      = .ok ("stable", none) := by
    unfold computeTrendAnalysis
    rw [if_pos (by norm_num), hf, hs, if_neg (by norm_num),
      if_neg (by norm_num)]
  exact ⟨h, by rw [h]; simp⟩

/-- C1 (amended): the trend classifier splits the series at the integer-floor
midpoint (the first half gets floor(n/2) points, the second half the rest,
so odd lengths favour the second half); with at least 2 points it returns
"increasing" when the second-half mean exceeds 1.05 times the first-half
mean and "decreasing" when it is below 0.95 times it — in both cases, and
provided the first-half mean is nonzero (otherwise the computation raises,
see the zero-division theorem), with growth rate
(second - first)/first * 100 rounded to 2 decimals, except that a growth
rate of exactly 0 is emitted as None; "stable" otherwise, and
"insufficient_data" below 2 points, both with growth-rate field None rather
than 0.  When the first-half mean is positive the increasing branch always
carries the rounded rate. -/
theorem trend_classifier_spec (values : List ℚ) :
    ((firstHalf values).length = values.length / 2
      ∧ (secondHalf values).length = values.length - values.length / 2)
    ∧ (values.length < 2 →
        computeTrendAnalysis values = .ok ("insufficient_data", none))
    ∧ (2 ≤ values.length →
        avgFirstOf values * (105/100) < avgSecondOf values →
        avgFirstOf values ≠ 0 →
        computeTrendAnalysis values = .ok ("increasing",
          growthField ((avgSecondOf values - avgFirstOf values)
            / avgFirstOf values * 100)))
    ∧ (2 ≤ values.length →
        ¬(avgFirstOf values * (105/100) < avgSecondOf values) →
        avgSecondOf values < avgFirstOf values * (95/100) →
        avgFirstOf values ≠ 0 →
        computeTrendAnalysis values = .ok ("decreasing",
          growthField ((avgSecondOf values - avgFirstOf values)
            / avgFirstOf values * 100)))
    ∧ (2 ≤ values.length →
        ¬(avgFirstOf values * (105/100) < avgSecondOf values) →
        ¬(avgSecondOf values < avgFirstOf values * (95/100)) →
        computeTrendAnalysis values = .ok ("stable", none))
    ∧ (0 < avgFirstOf values →
        avgFirstOf values * (105/100) < avgSecondOf values →
        growthField ((avgSecondOf values - avgFirstOf values)
            / avgFirstOf values * 100)
          = some (round2 ((avgSecondOf values - avgFirstOf values)
            / avgFirstOf values * 100))) := by
  refine ⟨⟨?_, ?_⟩, ?_, ?_, ?_, ?_, ?_⟩
  · simp [firstHalf]
    omega
  · simp [secondHalf]
  · intro hlt
    unfold computeTrendAnalysis
    rw [if_neg (by omega)]
  · intro h2 hinc hne
    unfold computeTrendAnalysis
    rw [if_pos h2, if_pos hinc, if_neg hne]
  · intro h2 hninc hdec hne
    unfold computeTrendAnalysis
    rw [if_pos h2, if_neg hninc, if_pos hdec, if_neg hne]
  · intro h2 hninc hndec
    unfold computeTrendAnalysis
    rw [if_pos h2, if_neg hninc, if_neg hndec]
  · intro hpos hinc
    have hg : 0 < (avgSecondOf values - avgFirstOf values)
        / avgFirstOf values * 100 := by
      have hnum : 0 < avgSecondOf values - avgFirstOf values := by nlinarith
      positivity
    unfold growthField
    rw [if_neg hg.ne.symm]

/-- C1 witness: the series [10,10,10,20,20,20] splits into first-half mean
10 and second-half mean 20 and is classified "increasing" with growth rate
100.0. -/
theorem trend_classifier_spec_witness :
    computeTrendAnalysis [10, 10, 10, 20, 20, 20]
      = .ok ("increasing", some 100) := by
  have hf : avgFirstOf [10, 10, 10, 20, 20, 20] = 10 := by
    norm_num [avgFirstOf, firstHalf, meanQ]
  have hs : avgSecondOf [10, 10, 10, 20, 20, 20] = 20 := by
    norm_num [avgSecondOf, secondHalf, meanQ]
  have h := (trend_classifier_spec [10, 10, 10, 20, 20, 20]).2.2.1
    (by norm_num) (by rw [hf, hs]; norm_num) (by rw [hf]; norm_num)
  rw [h, hf, hs]
  have : ((20 : ℚ) - 10) / 10 * 100 = 100 := by norm_num
  rw [this]
  unfold growthField
  rw [if_neg (by norm_num)]
  norm_num [round2, roundTo, roundHalfEven]

/-- C10: with at least 2 points, a first-half mean of exactly 0 and a
positive second-half mean, the trend computation takes the "increasing"
branch and its growth-rate expression divides by the zero first-half mean,
so the operation raises (ZeroDivisionError) instead of returning a
classification. -/
theorem trend_growth_zero_division (values : List ℚ)
    (h2 : 2 ≤ values.length) (hf : avgFirstOf values = 0)
    (hs : 0 < avgSecondOf values) :
    computeTrendAnalysis values = .error .zeroDivision := by
  unfold computeTrendAnalysis
  rw [if_pos h2, if_pos (by rw [hf]; simpa using hs), if_pos hf]

/-- C10 witness: the two-point series [0, 1] has first-half mean 0 and
second-half mean 1, and the trend computation raises. -/
theorem trend_growth_zero_division_witness :
    computeTrendAnalysis [0, 1] = .error .zeroDivision :=
  trend_growth_zero_division [0, 1] (by norm_num)
    (by simp [avgFirstOf, firstHalf, meanQ])
    (by simp [avgSecondOf, secondHalf, meanQ])

end MedAnalytics
